import Mathlib

/-!
Verification of the training orchestrator in `train.py` (image-to-LaTeX trainer).
Each definition below is a shallow embedding of a region of `train.py`;
the source line numbers are cited next to each definition.
Python floats are modelled as exact rationals (`ℚ`) except for the learning-rate
schedule, where `math.cos` forces the reals (`ℝ`, with `Real.cos`).
-/

namespace Train

/-- The two best-metric trackers of the training state
(`best_val_loss`, `best_val_bleu`; train.py lines 84-85, initialised to
`1e9` and `0.0`). -/
structure EvalState where
  best_val_loss : ℚ
  best_val_bleu : ℚ
deriving DecidableEq, Repr

/-- train.py lines 336-341: the best-metric update performed after each
evaluation.  The outer condition is
`val_loss < best_val_loss or always_save_checkpoint or val_bleu > best_val_bleu`;
inside, an `if`/`elif` updates `best_val_loss` first and `best_val_bleu`
only when the loss did not improve. -/
def update_best (always_save_checkpoint : Bool) (s : EvalState)
    (val_loss val_bleu : ℚ) : EvalState :=
  if val_loss < s.best_val_loss ∨ always_save_checkpoint = true
      ∨ val_bleu > s.best_val_bleu then
    if val_loss < s.best_val_loss then { s with best_val_loss := val_loss }
    else if val_bleu > s.best_val_bleu then { s with best_val_bleu := val_bleu }
    else s
  else s

/-- train.py line 315: the guard on the whole evaluation-and-checkpoint block:
`if iter_num % eval_interval == 0 and master_process`. -/
def eval_triggers (iter_num eval_interval : ℕ) (master_process : Bool) : Bool :=
  decide (iter_num % eval_interval = 0) && master_process

/-- train.py lines 336 and 344: `torch.save` executes exactly when the
improvement condition of line 336 holds and additionally `iter_num > 0`
(line 344). -/
def saves_checkpoint (always_save_checkpoint : Bool) (iter_num : ℕ)
    (s : EvalState) (val_loss val_bleu : ℚ) : Bool :=
  (decide (val_loss < s.best_val_loss) || always_save_checkpoint
      || decide (val_bleu > s.best_val_bleu))
    && decide (iter_num > 0)

/-- train.py lines 315-354: a checkpoint file is written during an iteration
iff the evaluation block triggers and the save condition inside it holds. -/
def checkpoint_persisted (eval_interval : ℕ) (master_process always_save_checkpoint : Bool)
    (iter_num : ℕ) (s : EvalState) (val_loss val_bleu : ℚ) : Bool :=
  eval_triggers iter_num eval_interval master_process
    && saves_checkpoint always_save_checkpoint iter_num s val_loss val_bleu

/-- Values stored in the checkpoint dict: scalar metrics are rationals,
tensors/dicts are opaque blobs identified by a tag. -/
inductive CkptVal where
  | num (q : ℚ)
  | blob (tag : String)
deriving DecidableEq, Repr

/-- train.py lines 345-352: the exact dict passed to `torch.save`, keyed as in
the source.  Note it has no `iter_num` entry. -/
def checkpoint_dict (best_val_loss best_val_bleu : ℚ) : List (String × CkptVal) :=
  [("model", CkptVal.blob "model_state"),
   ("optimizer", CkptVal.blob "optimizer_state"),
   ("model_args", CkptVal.blob "model_args"),
   ("best_val_loss", CkptVal.num best_val_loss),
   ("config", CkptVal.blob "config"),
   ("best_val_bleu", CkptVal.num best_val_bleu)]

/-- train.py lines 176-178: the resume branch reads
`checkpoint['iter_num']`, `checkpoint['best_val_loss']`,
`checkpoint['best_val_bleu']`; a missing key (Python `KeyError`) is `none`. -/
def resume_training_state (d : List (String × CkptVal)) :
    Option (CkptVal × CkptVal × CkptVal) :=
  match d.lookup "iter_num", d.lookup "best_val_loss", d.lookup "best_val_bleu" with
  | some i, some l, some b => some (i, l, b)
  | _, _, _ => none

/-- train.py lines 299-306 and 360-366: the outer loop fetches one
`(images, latex_labels)` pair per `batch_idx` from the train loader; the
micro-step loop then calls `model(images=images, targets=targets)` with that
same pair at every micro step.  `fetch` is the stream of batches the data
source would supply; the result is the batch seen by a given micro step. -/
def batch_for_micro_step {B : Type} (fetch : ℕ → B) (batch_idx : ℕ)
    (_micro_step : ℕ) : B :=
  fetch batch_idx

/-- One event of the per-iteration forward/backward/update section.
`grad_sync` is the value assigned to `model.require_backward_grad_sync`
(train.py line 362); it is only assigned in DDP mode, hence `Option`. -/
inductive IterEvent where
  | backward (scaled_loss : ℚ) (grad_sync : Option Bool)
  | opt_step
deriving DecidableEq, Repr

/-- Whether an `IterEvent` is a backward pass. -/
def IterEvent.isBackward : IterEvent → Bool
  | .backward _ _ => true
  | .opt_step => false

/-- Whether an `IterEvent` is an optimizer step. -/
def IterEvent.isStep : IterEvent → Bool
  | .backward _ _ => false
  | .opt_step => true

/-- train.py lines 360-410: one iteration body after the evaluation block.
For each `micro_step` in `range(K)` (K = `gradient_accumulation_steps`):
in DDP, `require_backward_grad_sync = (micro_step == K - 1)` (line 362);
the backward pass uses `outputs[1] / gradient_accumulation_steps`
(lines 382, 400), where `loss i` denotes `outputs[1]` at micro step `i`.
After the loop a single `scaler.step(optimizer)` runs (line 408). -/
def micro_sync (ddp : Bool) (K i : ℕ) : Option Bool :=
  if ddp then some (decide (i = K - 1)) else none

/-- train.py lines 360-410 continued: the list of events of one iteration
body — K backward passes followed by the single optimizer step. -/
def iteration_trace (ddp : Bool) (K : ℕ) (loss : ℕ → ℚ) : List IterEvent :=
  ((List.range K).map fun i =>
      IterEvent.backward (loss i / K) (micro_sync ddp K i))
    ++ [IterEvent.opt_step]

/-- Configuration of the learning-rate schedule (train.py lines 65, 73-75):
`learning_rate`, `warmup_iters`, `lr_decay_iters`, `min_lr`. -/
structure LrConfig where
  learning_rate : ℝ
  warmup_iters : ℕ
  lr_decay_iters : ℕ
  min_lr : ℝ

/-- train.py line 273: `coeff = 0.5 * (1.0 + math.cos(math.pi * decay_ratio))`
with `decay_ratio = (it - warmup_iters) / (lr_decay_iters - warmup_iters)`
(line 271), hoisted into a named function. -/
noncomputable def lr_coeff (cfg : LrConfig) (it : ℕ) : ℝ :=
  1 / 2 * (1 + Real.cos (Real.pi *
    (((it : ℝ) - cfg.warmup_iters) / ((cfg.lr_decay_iters : ℝ) - cfg.warmup_iters))))

/-- train.py lines 262-274: the learning-rate decay scheduler with cosine
warmup.  Linear ramp below `warmup_iters`, `min_lr` above `lr_decay_iters`,
cosine decay in between. -/
noncomputable def get_lr (cfg : LrConfig) (it : ℕ) : ℝ :=
  if it < cfg.warmup_iters then
    cfg.learning_rate * it / cfg.warmup_iters
  else if it > cfg.lr_decay_iters then
    cfg.min_lr
  else
    cfg.min_lr + lr_coeff cfg it * (cfg.learning_rate - cfg.min_lr)

/-- The default schedule parameters of train.py lines 65, 73-75:
`learning_rate = 6e-4`, `warmup_iters = 2000`, `lr_decay_iters = 45000`,
`min_lr = 6e-5`. -/
noncomputable def defaultLrConfig : LrConfig :=
  { learning_rate := 6 / 10000, warmup_iters := 2000,
    lr_decay_iters := 45000, min_lr := 6 / 100000 }

/-- train.py line 389: `dist.all_reduce(loss_tensor, op=dist.ReduceOp.AVG)` —
every worker contributes its local loss and receives the mean. -/
def all_reduce_avg (worker_losses : List ℚ) : ℚ :=
  worker_losses.sum / worker_losses.length

/-- train.py line 395: the `train/loss` value sent to wandb is
`avg_loss.item() if ddp else orig_loss.item()`, where `avg_loss` is the
all-reduced mean and `orig_loss` the local micro-step loss. -/
def wandb_train_loss (ddp : Bool) (worker_losses : List ℚ) (orig_loss : ℚ) : ℚ :=
  if ddp then all_reduce_avg worker_losses else orig_loss

/-- train.py lines 382 and 420: the periodic console/log line prints
`lossf = loss.item() * gradient_accumulation_steps`, with
`loss = orig_loss / gradient_accumulation_steps` from the last micro step
of the local worker; no all-reduce is applied to it. -/
def console_lossf (orig_loss : ℚ) (gradient_accumulation_steps : ℕ) : ℚ :=
  orig_loss / gradient_accumulation_steps * gradient_accumulation_steps

/-- train.py line 116: `assert gradient_accumulation_steps % ddp_world_size == 0`
(inside the `if ddp:` branch).  `true` means the assert passes. -/
def startup_accum_check (gradient_accumulation_steps ddp_world_size : ℕ) : Bool :=
  decide (gradient_accumulation_steps % ddp_world_size = 0)

/-- train.py lines 100-122: startup aborts (AssertionError) exactly when the
run is distributed and the divisibility assert of line 116 fails; the
non-distributed branch performs no such check. -/
def startup_aborts (ddp : Bool) (gradient_accumulation_steps ddp_world_size : ℕ) : Bool :=
  ddp && !(startup_accum_check gradient_accumulation_steps ddp_world_size)

/-- train.py lines 288-441: the epoch loop.  `iters_per_epoch e` is the number
of batches the train loader yields in epoch `e` (the inner loop increments
`iter_num` once per batch, line 431).  After each epoch, only under `if ddp:`
comes the barrier and then `if iter_num > max_iters: break` (lines 433-439).
Returns (epochs executed, final `iter_num`).  Models the default
`eval_only = False` path. -/
def run_epochs (ddp : Bool) (max_iters : ℕ) (iters_per_epoch : ℕ → ℕ) :
    ℕ → ℕ → ℕ → ℕ × ℕ
  | 0, epoch, iter_num => (epoch, iter_num)
  | n + 1, epoch, iter_num =>
    if ddp = true ∧ max_iters < iter_num + iters_per_epoch epoch then
      (epoch + 1, iter_num + iters_per_epoch epoch)
    else
      run_epochs ddp max_iters iters_per_epoch n (epoch + 1)
        (iter_num + iters_per_epoch epoch)

/-! ## Theorems -/

/-- C1: the checkpoint dict written by `torch.save` round-trips
`best_val_loss` and `best_val_bleu`, but contains no `iter_num` key, so the
resume branch, which reads `checkpoint['iter_num']`, fails (KeyError): the
saved checkpoint does not contain `iterNum` and resuming cannot restore it,
contradicting both the claim and the code's own resume logic. -/
theorem checkpoint_missing_iter_num (l b : ℚ) :
    (checkpoint_dict l b).lookup "iter_num" = none
  ∧ (checkpoint_dict l b).lookup "best_val_loss" = some (CkptVal.num l)
  ∧ (checkpoint_dict l b).lookup "best_val_bleu" = some (CkptVal.num b)
  ∧ resume_training_state (checkpoint_dict l b) = none :=
  ⟨rfl, rfl, rfl, rfl⟩

/-- C2 counterexample: with trackers `(10, 0)` and a fresh result
`(loss, bleu) = (5, 1)` improving both metrics, the `if`/`elif` of
train.py lines 337-341 updates only `best_val_loss`; `best_val_bleu` stays
`0`, refuting the claim that both trackers update when both improve. -/
theorem update_best_not_independent_cex :
    (5 : ℚ) < 10 ∧ (0 : ℚ) < 1
  ∧ update_best false ⟨10, 0⟩ 5 1 = ⟨5, 0⟩ := by
  decide

/-- C2 amended: `best_val_loss` updates exactly when the loss improved, but
`best_val_bleu` updates exactly when the BLEU improved AND the loss did not
(the `elif`); each tracker is still monotone (loss never increases, BLEU
never decreases). -/
theorem update_best_elif_monotone (always : Bool) (s : EvalState) (l b : ℚ) :
    ((update_best always s l b).best_val_loss
       = if l < s.best_val_loss then l else s.best_val_loss)
  ∧ ((update_best always s l b).best_val_bleu
       = if ¬ l < s.best_val_loss ∧ s.best_val_bleu < b then b
         else s.best_val_bleu)
  ∧ (update_best always s l b).best_val_loss ≤ s.best_val_loss
  ∧ s.best_val_bleu ≤ (update_best always s l b).best_val_bleu := by
  unfold update_best
  split_ifs with h1 h2 h3 <;> simp_all <;> linarith

/-- C3: a checkpoint file is persisted in an iteration iff the evaluation
cadence fires (`iter_num % eval_interval == 0`), the process is the
coordinator, `iter_num > 0`, and at least one metric improved or the
always-save flag is set; at `iter_num = 0` nothing is persisted, and the
evaluation block only runs on the coordinator. -/
theorem checkpoint_persisted_iff (eval_interval : ℕ)
    (master always : Bool) (iter_num : ℕ) (s : EvalState) (l b : ℚ) :
    (checkpoint_persisted eval_interval master always iter_num s l b = true
      ↔ iter_num % eval_interval = 0 ∧ master = true ∧ 0 < iter_num
          ∧ (l < s.best_val_loss ∨ b > s.best_val_bleu ∨ always = true))
  ∧ checkpoint_persisted eval_interval master always 0 s l b = false
  ∧ (eval_triggers iter_num eval_interval master = true → master = true) := by
  refine ⟨?_, ?_, ?_⟩
  · simp only [checkpoint_persisted, eval_triggers, saves_checkpoint,
      Bool.and_eq_true, Bool.or_eq_true, decide_eq_true_eq]
    tauto
  · simp [checkpoint_persisted, saves_checkpoint]
  · intro h
    simp only [eval_triggers, Bool.and_eq_true] at h
    exact h.2

/-- C3 witness: at iteration 600 with interval 600 on the coordinator and a
loss improving on the tracker, a checkpoint is persisted. -/
theorem checkpoint_persisted_iff_witness :
    checkpoint_persisted 600 true false 600 ⟨10, 0⟩ 5 0 = true :=
  (checkpoint_persisted_iff 600 true false 600 ⟨10, 0⟩ 5 0).1.mpr
    ⟨by decide, rfl, by decide, Or.inl (by norm_num)⟩

/-- C4 counterexample: with a data-source stream that has pairwise-distinct
batches available (`fetch = id`), micro steps 0 and 1 of the same iteration
still operate on equal batches — the single fetched batch is reused, not K
distinct micro-batches. -/
theorem micro_steps_share_one_batch_cex :
    batch_for_micro_step (fun n => n) 0 0 = batch_for_micro_step (fun n => n) 0 1
  ∧ (fun n : ℕ => n) 0 ≠ (fun n : ℕ => n) 1 :=
  ⟨rfl, by decide⟩

/-- C4 amended: every micro step of one logical batch operates on the same
single batch fetched by the outer loop for that `batch_idx`; no micro step
pulls its own micro-batch. -/
theorem micro_steps_reuse_fetched_batch (B : Type) (fetch : ℕ → B)
    (batch_idx i j : ℕ) :
    batch_for_micro_step fetch batch_idx i
      = batch_for_micro_step fetch batch_idx j :=
  rfl

/-- C5: each logical batch performs exactly K backward micro-steps and
exactly one optimizer step, the step coming last; micro-step `i` uses the
loss scaled by `1/K`; and in distributed mode the gradient-sync flag is
`true` exactly on the final micro-step `i = K - 1` (and is never assigned
outside distributed mode). -/
theorem grad_accum_iteration (ddp : Bool) (K : ℕ) (loss : ℕ → ℚ) :
    ((iteration_trace ddp K loss).countP IterEvent.isBackward = K)
  ∧ ((iteration_trace ddp K loss).countP IterEvent.isStep = 1)
  ∧ ((iteration_trace ddp K loss).getLast? = some IterEvent.opt_step)
  ∧ (∀ i, i < K → (iteration_trace ddp K loss).get? i
        = some (IterEvent.backward (loss i / K) (micro_sync ddp K i)))
  ∧ (∀ i, micro_sync true K i = some true ↔ i = K - 1)
  ∧ (∀ i, micro_sync false K i = none) := by
  refine ⟨?_, ?_, ?_, ?_, ?_, ?_⟩
  · simp [iteration_trace, List.countP_append, List.countP_map,
      Function.comp_def, IterEvent.isBackward, IterEvent.isStep,
      List.countP_eq_length]
  · simp [iteration_trace, List.countP_append, List.countP_map,
      Function.comp_def, IterEvent.isBackward, IterEvent.isStep]
  · simp [iteration_trace]
  · intro i hi
    rw [iteration_trace, List.get?_append (by simpa using hi),
      List.get?_map, List.get?_range hi]
    rfl
  · intro i
    simp [micro_sync]
  · intro i
    simp [micro_sync]

/-- C5 witness: with K = 2 in distributed mode, exactly one optimizer step
occurs in the iteration trace. -/
theorem grad_accum_iteration_witness :
    (iteration_trace true 2 (fun _ => 1)).countP IterEvent.isStep = 1 :=
  (grad_accum_iteration true 2 (fun _ => 1)).2.1

/-- C7 counterexample: a two-worker run with local micro-step losses 0 (the
coordinator) and 2: the all-reduced mean is 1, but the periodic console line
prints `lossf = (0 / 8) * 8 = 0`, the coordinator's local shard loss, not
the cross-worker mean. -/
theorem console_loss_not_worker_mean_cex :
    all_reduce_avg [0, 2] = 1
  ∧ console_lossf 0 8 = 0
  ∧ ¬ console_lossf 0 8 = all_reduce_avg [0, 2] := by
  refine ⟨?_, ?_, ?_⟩ <;>
    simp [all_reduce_avg, console_lossf]

/-- C7 amended: in a distributed run the wandb `train/loss` value is the
all-reduced mean across workers, while the periodic console/log-file line
shows the local worker's unreduced loss (`loss * K` undoes the earlier `/ K`
exactly). -/
theorem logged_loss_sources (worker_losses : List ℚ) (orig_loss : ℚ)
    (K : ℕ) (hK : K ≠ 0) :
    wandb_train_loss true worker_losses orig_loss = all_reduce_avg worker_losses
  ∧ console_lossf orig_loss K = orig_loss := by
  refine ⟨rfl, ?_⟩
  unfold console_lossf
  rw [div_mul_cancel₀]
  exact_mod_cast hK

/-- C7 witness: with K = 8 the console value recovers the local loss 3. -/
theorem logged_loss_sources_witness :
    (8 : ℕ) ≠ 0 ∧ console_lossf 3 8 = 3 :=
  ⟨by decide, (logged_loss_sources [0, 2] 3 8 (by decide)).2⟩

/-- C8 counterexample: world size 4, accumulation count 2 — the world size
IS divisible by the accumulation count (4 % 2 = 0), yet startup aborts,
because the assert actually requires the accumulation count to be divisible
by the world size. -/
theorem divisibility_direction_cex :
    (4 : ℕ) % 2 = 0 ∧ startup_aborts true 2 4 = true := by
  decide

/-- C8 amended: in a distributed run, startup aborts iff the
gradient-accumulation step count is NOT divisible by the world size (the
converse divisibility of the claim); every configuration where the world
size divides the accumulation count proceeds, and single-process startup
never performs the check. -/
theorem startup_abort_iff (a w : ℕ) :
    (startup_aborts true a w = false ↔ w ∣ a)
  ∧ startup_aborts false a w = false := by
  constructor
  · simp only [startup_aborts, startup_accum_check, Bool.true_and,
      Bool.not_eq_false', decide_eq_true_eq]
    exact Nat.dvd_iff_mod_eq_zero.symm
  · simp [startup_aborts]

/-- C9: in a single-worker run the epoch loop executes all scheduled epochs
regardless of `max_iters` (the epoch body unconditionally continues), while
in distributed mode the loop stops right after the epoch whose end finds
`iter_num > max_iters` — the check exists only at distributed epoch
boundaries. -/
theorem max_iters_check_only_in_ddp :
    (∀ m f n e it, (run_epochs false m f n e it).1 = e + n)
  ∧ (∀ m f n e it, m < it + f e →
        run_epochs true m f (n + 1) e it = (e + 1, it + f e))
  ∧ (∀ m f n e it, run_epochs false m f (n + 1) e it
        = run_epochs false m f n (e + 1) (it + f e)) := by
  refine ⟨?_, ?_, ?_⟩
  · intro m f n
    induction n with
    | zero => intro e it; simp [run_epochs]
    | succ k ih =>
      intro e it
      rw [run_epochs]
      simp only [false_and, if_false, Bool.false_eq_true]
      rw [ih]
      omega
  · intro m f n e it h
    rw [run_epochs]
    simp [h]
  · intro m f n e it
    rw [run_epochs]
    simp

/-- C9 witness: 3 epochs of 10 iterations with `max_iters = 5` in a
single-worker run still execute all 3 epochs. -/
theorem max_iters_check_only_in_ddp_witness :
    (run_epochs false 5 (fun _ => 10) 3 0 0).1 = 3 := by
  simpa using max_iters_check_only_in_ddp.1 5 (fun _ => 10) 3 0 0

/-- C10 counterexample: start from the initial trackers `(1e9, 0)`
(train.py lines 84-85).  The iteration-0 evaluation returns
`(loss, bleu) = (10, 5)`: both improve, but the `elif` records only the
loss, leaving the trackers at `(10, 0)`, and no checkpoint is written.  A
later evaluation at iteration 600 returning `(20, 3)` — strictly worse than
the iteration-0 result on both metrics, with the always-save flag off —
still writes the first checkpoint (because `3 > 0`), refuting the claim
that a later evaluation must strictly beat the iteration-0 result. -/
theorem first_checkpoint_without_beating_iter0_cex :
    update_best false ⟨1000000000, 0⟩ 10 5 = ⟨10, 0⟩
  ∧ saves_checkpoint false 0 ⟨1000000000, 0⟩ 10 5 = false
  ∧ saves_checkpoint false 600 ⟨10, 0⟩ 20 3 = true
  ∧ ¬ (20 : ℚ) < 10 ∧ ¬ (5 : ℚ) < 3 := by
  decide

/-- C10 amended: the iteration-0 evaluation does run on the coordinator and
updates the trackers (by the `if`/`elif` rule of `update_best`) without
persisting anything; a later evaluation writes the first checkpoint exactly
when it improves on the CURRENT trackers — `bestValLoss` as updated at
iteration 0, and `bestValBleu` which the iteration-0 pass updated only if
the loss did not improve then — or the always-save flag is set. -/
theorem iter0_eval_updates_without_save (eval_interval it : ℕ)
    (s0 : EvalState) (l0 b0 l1 b1 : ℚ) (always : Bool) (hit : 0 < it) :
    eval_triggers 0 eval_interval true = true
  ∧ saves_checkpoint always 0 s0 l0 b0 = false
  ∧ (saves_checkpoint always it (update_best always s0 l0 b0) l1 b1 = true
      ↔ (l1 < (update_best always s0 l0 b0).best_val_loss
          ∨ always = true
          ∨ b1 > (update_best always s0 l0 b0).best_val_bleu)) := by
  refine ⟨?_, ?_, ?_⟩
  · simp [eval_triggers]
  · simp [saves_checkpoint]
  · simp only [saves_checkpoint, Bool.and_eq_true, Bool.or_eq_true,
      decide_eq_true_eq]
    constructor
    · rintro ⟨h, -⟩; tauto
    · intro h; exact ⟨by tauto, by simpa using hit⟩

/-- C10 witness: with interval 600 and a later iteration 600 whose loss 5
beats the tracker value 10 set at iteration 0, the save condition holds. -/
theorem iter0_eval_updates_without_save_witness :
    (0 : ℕ) < 600
  ∧ saves_checkpoint false 600 (update_best false ⟨1000000000, 0⟩ 10 5) 5 0
      = true :=
  ⟨by decide,
   (iter0_eval_updates_without_save 600 600 ⟨1000000000, 0⟩ 10 5 5 0 false
       (by decide)).2.2.mpr (Or.inl (by decide))⟩

/-! Helper lemmas for the learning-rate schedule. -/

/-- Warmup branch of `get_lr` (train.py lines 265-266). -/
theorem get_lr_of_lt_warmup (cfg : LrConfig) (it : ℕ)
    (h : it < cfg.warmup_iters) :
    get_lr cfg it = cfg.learning_rate * it / cfg.warmup_iters := by
  rw [get_lr, if_pos h]

/-- Post-decay branch of `get_lr` (train.py lines 268-269). -/
theorem get_lr_of_gt_decay (cfg : LrConfig) (it : ℕ)
    (h1 : cfg.warmup_iters ≤ it) (h2 : cfg.lr_decay_iters < it) :
    get_lr cfg it = cfg.min_lr := by
  rw [get_lr, if_neg (not_lt.mpr h1), if_pos h2]

/-- Cosine branch of `get_lr` (train.py lines 271-274). -/
theorem get_lr_cosine (cfg : LrConfig) (it : ℕ)
    (h1 : cfg.warmup_iters ≤ it) (h2 : it ≤ cfg.lr_decay_iters) :
    get_lr cfg it
      = cfg.min_lr + lr_coeff cfg it * (cfg.learning_rate - cfg.min_lr) := by
  rw [get_lr, if_neg (not_lt.mpr h1), if_neg (not_lt.mpr h2)]

/-- The cosine coefficient is nonnegative. -/
theorem lr_coeff_nonneg (cfg : LrConfig) (it : ℕ) : 0 ≤ lr_coeff cfg it := by
  unfold lr_coeff
  have h := Real.neg_one_le_cos (Real.pi *
    (((it : ℝ) - cfg.warmup_iters) / ((cfg.lr_decay_iters : ℝ) - cfg.warmup_iters)))
  linarith

/-- The cosine coefficient is at most one. -/
theorem lr_coeff_le_one (cfg : LrConfig) (it : ℕ) : lr_coeff cfg it ≤ 1 := by
  unfold lr_coeff
  have h := Real.cos_le_one (Real.pi *
    (((it : ℝ) - cfg.warmup_iters) / ((cfg.lr_decay_iters : ℝ) - cfg.warmup_iters)))
  linarith

/-- At `it = warmup_iters` the decay ratio is 0 and the coefficient is 1. -/
theorem lr_coeff_at_warmup (cfg : LrConfig) :
    lr_coeff cfg cfg.warmup_iters = 1 := by
  unfold lr_coeff
  rw [sub_self, zero_div, mul_zero, Real.cos_zero]
  norm_num

/-- At `it = lr_decay_iters` the decay ratio is 1 and the coefficient is 0. -/
theorem lr_coeff_at_decay (cfg : LrConfig)
    (h : cfg.warmup_iters < cfg.lr_decay_iters) :
    lr_coeff cfg cfg.lr_decay_iters = 0 := by
  unfold lr_coeff
  have hne : ((cfg.lr_decay_iters : ℝ) - cfg.warmup_iters) ≠ 0 := by
    have : (cfg.warmup_iters : ℝ) < cfg.lr_decay_iters := by exact_mod_cast h
    linarith
  rw [div_self hne, mul_one, Real.cos_pi]
  norm_num

/-- The cosine coefficient is antitone in `it` on `[warmup, decay]`. -/
theorem lr_coeff_antitone (cfg : LrConfig) (a b : ℕ)
    (hw : cfg.warmup_iters ≤ a) (hab : a ≤ b) (hd : b ≤ cfg.lr_decay_iters)
    (hwd : cfg.warmup_iters < cfg.lr_decay_iters) :
    lr_coeff cfg b ≤ lr_coeff cfg a := by
  have hden : (0 : ℝ) < (cfg.lr_decay_iters : ℝ) - cfg.warmup_iters := by
    have : (cfg.warmup_iters : ℝ) < cfg.lr_decay_iters := by exact_mod_cast hwd
    linarith
  have hra : (0 : ℝ)
      ≤ ((a : ℝ) - cfg.warmup_iters) / ((cfg.lr_decay_iters : ℝ) - cfg.warmup_iters) := by
    apply div_nonneg _ hden.le
    have : (cfg.warmup_iters : ℝ) ≤ a := by exact_mod_cast hw
    linarith
  have hrb : ((b : ℝ) - cfg.warmup_iters) / ((cfg.lr_decay_iters : ℝ) - cfg.warmup_iters)
      ≤ 1 := by
    rw [div_le_one hden]
    have : (b : ℝ) ≤ cfg.lr_decay_iters := by exact_mod_cast hd
    linarith
  have hr : ((a : ℝ) - cfg.warmup_iters) / ((cfg.lr_decay_iters : ℝ) - cfg.warmup_iters)
      ≤ ((b : ℝ) - cfg.warmup_iters) / ((cfg.lr_decay_iters : ℝ) - cfg.warmup_iters) := by
    apply (div_le_div_right hden).mpr
    have : (a : ℝ) ≤ b := by exact_mod_cast hab
    linarith
  have hπb : Real.pi * (((b : ℝ) - cfg.warmup_iters)
      / ((cfg.lr_decay_iters : ℝ) - cfg.warmup_iters)) ≤ Real.pi := by
    have h1 := mul_le_mul_of_nonneg_left hrb Real.pi_pos.le
    simpa using h1
  have hcos := Real.cos_le_cos_of_nonneg_of_le_pi
    (mul_nonneg Real.pi_pos.le hra) hπb
    (mul_le_mul_of_nonneg_left hr Real.pi_pos.le)
  unfold lr_coeff
  linarith

/-- C6 counterexample: with the default schedule
(`learning_rate = 6e-4`, `warmup_iters = 2000`, `min_lr = 6e-5`),
`get_lr 0 = learning_rate * 0 / warmup_iters = 0`, which is strictly below
`min_lr` — so the output is NOT within `[minLr, baseLr]` for all iterations
(the warmup ramp starts below `minLr`). -/
theorem lr_zero_below_min_lr_cex :
    get_lr defaultLrConfig 0 < defaultLrConfig.min_lr := by
  have h0 : get_lr defaultLrConfig 0 = 0 := by
    rw [get_lr_of_lt_warmup defaultLrConfig 0 (by norm_num [defaultLrConfig])]
    norm_num
  rw [h0]
  norm_num [defaultLrConfig]

/-- C6 amended: assuming `0 < warmupIters < decayIters` and
`0 ≤ minLr ≤ baseLr`:  `lr 0 = 0`, `lr warmupIters = baseLr`,
`lr decayIters = minLr`, the output always lies within `[0, baseLr]` and —
from `warmupIters` onwards — within `[minLr, baseLr]`; it is monotonically
non-decreasing up to `warmupIters` and non-increasing from `warmupIters`
onwards.  (The claim's `[minLr, baseLr]` bound fails during warmup and is
weakened to `[0, baseLr]` there; the rest holds as stated.) -/
theorem get_lr_schedule_spec (cfg : LrConfig)
    (hw : 0 < cfg.warmup_iters) (hwd : cfg.warmup_iters < cfg.lr_decay_iters)
    (hm0 : 0 ≤ cfg.min_lr) (hmb : cfg.min_lr ≤ cfg.learning_rate) :
    get_lr cfg 0 = 0
  ∧ get_lr cfg cfg.warmup_iters = cfg.learning_rate
  ∧ get_lr cfg cfg.lr_decay_iters = cfg.min_lr
  ∧ (∀ it, 0 ≤ get_lr cfg it ∧ get_lr cfg it ≤ cfg.learning_rate)
  ∧ (∀ it, cfg.warmup_iters ≤ it → cfg.min_lr ≤ get_lr cfg it)
  ∧ (∀ it₁ it₂, it₁ ≤ it₂ → it₂ ≤ cfg.warmup_iters →
        get_lr cfg it₁ ≤ get_lr cfg it₂)
  ∧ (∀ it₁ it₂, cfg.warmup_iters ≤ it₁ → it₁ ≤ it₂ →
        get_lr cfg it₂ ≤ get_lr cfg it₁) := by
  have hbase0 : (0 : ℝ) ≤ cfg.learning_rate := le_trans hm0 hmb
  have hwpos : (0 : ℝ) < (cfg.warmup_iters : ℝ) := by exact_mod_cast hw
  have hwarm_lb : ∀ it : ℕ, it < cfg.warmup_iters → 0 ≤ get_lr cfg it := by
    intro it h
    rw [get_lr_of_lt_warmup _ _ h]
    exact div_nonneg (mul_nonneg hbase0 (Nat.cast_nonneg it)) hwpos.le
  have hwarm_ub : ∀ it : ℕ, it < cfg.warmup_iters →
      get_lr cfg it ≤ cfg.learning_rate := by
    intro it h
    rw [get_lr_of_lt_warmup _ _ h, div_le_iff hwpos]
    have hcast : (it : ℝ) ≤ cfg.warmup_iters := by exact_mod_cast h.le
    nlinarith
  have hcos_lb : ∀ it : ℕ, cfg.warmup_iters ≤ it → it ≤ cfg.lr_decay_iters →
      cfg.min_lr ≤ get_lr cfg it := by
    intro it h1 h2
    rw [get_lr_cosine _ _ h1 h2]
    have h3 := lr_coeff_nonneg cfg it
    nlinarith
  have hcos_ub : ∀ it : ℕ, cfg.warmup_iters ≤ it → it ≤ cfg.lr_decay_iters →
      get_lr cfg it ≤ cfg.learning_rate := by
    intro it h1 h2
    rw [get_lr_cosine _ _ h1 h2]
    have h3 := lr_coeff_le_one cfg it
    have h4 := lr_coeff_nonneg cfg it
    nlinarith
  have hmin_lb : ∀ it : ℕ, cfg.warmup_iters ≤ it →
      cfg.min_lr ≤ get_lr cfg it := by
    intro it h1
    by_cases h2 : it ≤ cfg.lr_decay_iters
    · exact hcos_lb it h1 h2
    · rw [get_lr_of_gt_decay _ _ h1 (lt_of_not_le h2)]
  have hlr0 : get_lr cfg 0 = 0 := by
    rw [get_lr_of_lt_warmup _ _ hw]
    simp
  have hlrw : get_lr cfg cfg.warmup_iters = cfg.learning_rate := by
    rw [get_lr_cosine _ _ le_rfl hwd.le, lr_coeff_at_warmup]
    ring
  have hlrd : get_lr cfg cfg.lr_decay_iters = cfg.min_lr := by
    rw [get_lr_cosine _ _ hwd.le le_rfl, lr_coeff_at_decay _ hwd]
    ring
  refine ⟨hlr0, hlrw, hlrd, ?_, hmin_lb, ?_, ?_⟩
  · intro it
    by_cases h1 : it < cfg.warmup_iters
    · exact ⟨hwarm_lb it h1, hwarm_ub it h1⟩
    · push_neg at h1
      by_cases h2 : it ≤ cfg.lr_decay_iters
      · exact ⟨le_trans hm0 (hcos_lb it h1 h2), hcos_ub it h1 h2⟩
      · rw [get_lr_of_gt_decay _ _ h1 (lt_of_not_le h2)]
        exact ⟨hm0, hmb⟩
  · intro it₁ it₂ h12 h2w
    by_cases h2 : it₂ < cfg.warmup_iters
    · have h1 : it₁ < cfg.warmup_iters := lt_of_le_of_lt h12 h2
      rw [get_lr_of_lt_warmup _ _ h1, get_lr_of_lt_warmup _ _ h2]
      apply (div_le_div_right hwpos).mpr
      have hcast : (it₁ : ℝ) ≤ it₂ := by exact_mod_cast h12
      nlinarith
    · have h2eq : it₂ = cfg.warmup_iters := le_antisymm h2w (not_lt.mp h2)
      subst h2eq
      rw [hlrw]
      by_cases h1 : it₁ < cfg.warmup_iters
      · exact hwarm_ub it₁ h1
      · have h1eq : it₁ = cfg.warmup_iters := le_antisymm h12 (not_lt.mp h1)
        rw [h1eq, hlrw]
  · intro it₁ it₂ hw1 h12
    by_cases hd2 : it₂ ≤ cfg.lr_decay_iters
    · have hd1 : it₁ ≤ cfg.lr_decay_iters := le_trans h12 hd2
      rw [get_lr_cosine _ _ hw1 hd1, get_lr_cosine _ _ (le_trans hw1 h12) hd2]
      have hc := lr_coeff_antitone cfg it₁ it₂ hw1 h12 hd2 hwd
      nlinarith
    · rw [get_lr_of_gt_decay _ _ (le_trans hw1 h12) (lt_of_not_le hd2)]
      exact hmin_lb it₁ hw1

/-- C6 witness: the default schedule parameters satisfy the hypotheses and
give `lr(0) = 0`. -/
theorem get_lr_schedule_spec_witness :
    0 < defaultLrConfig.warmup_iters ∧ get_lr defaultLrConfig 0 = 0 :=
  ⟨by norm_num [defaultLrConfig],
   (get_lr_schedule_spec defaultLrConfig (by norm_num [defaultLrConfig])
      (by norm_num [defaultLrConfig]) (by norm_num [defaultLrConfig])
      (by norm_num [defaultLrConfig])).1⟩

end Train
